import Mathlib

/-!
Verification of the harmony realtime gateway (AdaptChat/harmony).

This file gives a shallow embedding, in Lean, of the parts of the source
that the specification claims talk about:

* `src/presence.rs` — the per-user presence store protocol over Redis
  (session list under the key session-N, status under presence-N);
* `src/websocket.rs` — the session controller `process_events`, its
  upstream listener, its websocket listener and its teardown block;
* `src/recv.rs` — the per-delivery upstream handler `handle`;
* `src/client.rs` — the client pipeline `client_rx` with its governor
  rate limiter;
* `src/config.rs` — `Connection::decode` and the session-id minting in
  `UserSession::new_with_token`.

Redis keys are modelled per user: the list stored under session-N is a
`List PresenceSession` (absent key = empty list) and the value under
presence-N is an `Option PresenceStatus` (absent key = `none`).  Machine
integers hold values far below any overflow boundary in all modelled
code, so they are modelled as `Nat`.  Timestamps are `Nat` milliseconds.
External collaborators (database fetches, the message broker, the JSON
and MsgPack serializers) are passed in as explicit parameters where
their results matter, as indicated at each definition.
-/

namespace Harmony

/-- Device flavor of a presence session (essence model `Device`). -/
inductive Device where
  | desktop
  | mobile
  | web
deriving DecidableEq, Repr

/-- Presence status (essence model `PresenceStatus`). -/
inductive PresenceStatus where
  | online
  | idle
  | dnd
  | offline
deriving DecidableEq, Repr

/-- Bitflag union of devices (essence model `Devices`). -/
structure DeviceMask where
  desktop : Bool
  mobile : Bool
  web : Bool
deriving DecidableEq, Repr

/-- Devices::empty(). -/
def DeviceMask.empty : DeviceMask := ⟨false, false, false⟩

/-- Devices::is_all(). -/
def DeviceMask.isAll (d : DeviceMask) : Bool := d.desktop && d.mobile && d.web

/-- Devices::insert of the flag corresponding to one device. -/
def DeviceMask.insertDevice (d : DeviceMask) (dev : Device) : DeviceMask :=
  match dev with
  | .desktop => { d with desktop := true }
  | .mobile => { d with mobile := true }
  | .web => { d with web := true }

/-- One record of the per-user session list (presence.rs `PresenceSession`). -/
structure PresenceSession where
  session_id : String
  online_since : Nat
  device : Device
deriving DecidableEq, Repr

/-- The two Redis keys of one user: session-N (ordered record list,
absent key = empty list) and presence-N (status, absent key = `none`). -/
structure UserStore where
  sessions : List PresenceSession
  presence : Option PresenceStatus
deriving DecidableEq, Repr

/-- Derived presence (essence model `Presence`). -/
structure Presence where
  user_id : Nat
  status : PresenceStatus
  custom_status : Option String
  devices : DeviceMask
  online_since : Option Nat
deriving DecidableEq, Repr

/-- Loop body of presence.rs `get_devices`: OR the device flag of each
session into the mask, stopping early once all three flags are set. -/
def get_devices_aux : List PresenceSession → DeviceMask → DeviceMask
  | [], acc => acc
  | s :: rest, acc =>
    let acc := acc.insertDevice s.device
    if acc.isAll then acc else get_devices_aux rest acc

/-- presence.rs `get_devices`, as a function of the stored session list. -/
def get_devices (sessions : List PresenceSession) : DeviceMask :=
  get_devices_aux sessions DeviceMask.empty

/-- presence.rs `get_first_session`: LINDEX key 0. -/
def get_first_session (sessions : List PresenceSession) : Option PresenceSession :=
  sessions.head?

/-- presence.rs `insert_session`: RPUSH appends to the list. -/
def insert_session (sessions : List PresenceSession) (s : PresenceSession) :
    List PresenceSession :=
  sessions ++ [s]

/-- presence.rs `any_session_exists`: LLEN key > 0. -/
def any_session_exists (sessions : List PresenceSession) : Bool :=
  sessions.length > 0

/-- presence.rs `update_presence`: DEL the presence key when the status
is Offline, otherwise SET it to the encoded status.  The previous value
of the key never influences the result. -/
def update_presence (_presence : Option PresenceStatus) (status : PresenceStatus) :
    Option PresenceStatus :=
  if status = PresenceStatus.offline then none else some status

/-- presence.rs `get_presence`: default Offline on an absent key. -/
def get_presence (presence : Option PresenceStatus) : PresenceStatus :=
  presence.getD PresenceStatus.offline

/-- The fold of presence.rs `remove_session` that picks the index to
mark: over the enumerated list, the accumulator is replaced by the index
of every record whose session_id matches, starting from 0, so it ends at
the LAST matching index, or at 0 when nothing matches. -/
def removed_index (sessions : List PresenceSession) (sid : String) : Nat :=
  sessions.enum.foldl (fun acc iv => if iv.2.session_id = sid then iv.1 else acc) 0

/-- LREM key 1 REMOVED: drop the first marked element, scanning from the
head.  A mark (the sentinel string REMOVED written by LSET) is modelled
as `none`; genuine records (bincode blobs, never equal to the 7-byte
sentinel) are `some`. -/
def remove_first_marked : List (Option PresenceSession) → List (Option PresenceSession)
  | [] => []
  | none :: rest => rest
  | some s :: rest => some s :: remove_first_marked rest

/-- presence.rs `remove_session`, acting on the stored list.
The source short-circuits to DEL when the list has exactly one record
(whether or not it matches), then LSETs the chosen index to the sentinel
and LREMs the sentinel.  LSET on an absent key (empty list) fails with a
Redis error, which the returned `Except` carries. -/
def remove_session (sessions : List PresenceSession) (sid : String) :
    Except String (List PresenceSession) :=
  if sessions.length = 1 then .ok []
  else if sessions.length = 0 then .error "redis: lset no such key"
  else
    let idx := removed_index sessions sid
    .ok ((remove_first_marked ((sessions.map some).set idx none)).filterMap id)

/-- presence.rs `publish_presence_change`: fetch the observer ids, push
the id of the user itself, and publish one PresenceUpdate on the events
exchange per id (routing key = the id).  The observer set comes from the
external graph service and is a parameter. -/
def publish_presence_change (observers : List Nat) (user_id : Nat) (p : Presence) :
    List (Nat × Presence) :=
  (observers ++ [user_id]).map (fun uid => (uid, p))

/-- Outcome of the teardown block of websocket.rs `process_events`
(the block computing cleanup_succeeded after `inner` returns). -/
structure CleanupResult where
  store : UserStore
  published : List (Nat × Presence)
  ok : Bool
deriving DecidableEq, Repr

/-- Teardown of websocket.rs `process_events`: call `remove_session`,
then close the broker channel (assumed to succeed).  No other store key
is touched and nothing is published. -/
def process_events_cleanup (st : UserStore) (sid : String) : CleanupResult :=
  match remove_session st.sessions sid with
  | .ok sessions => ⟨⟨sessions, st.presence⟩, [], true⟩
  | .error _ => ⟨st, [], false⟩

/-- Inbound client messages (essence `InboundMessage`). -/
inductive InboundMessage where
  | identify (token : String) (status : PresenceStatus) (device : Device)
  | ping
  | updatePresence (status : Option PresenceStatus)
deriving DecidableEq, Repr

/-- Frames the websocket listener hands to the send queue. -/
inductive WsSent where
  | pong
  | closeFrame (code : Nat) (reason : String)
deriving DecidableEq, Repr

/-- Observable effect of one dispatched inbound message in the
ws_listener of websocket.rs. -/
structure WsStepResult where
  store : UserStore
  sent : List WsSent
  published : List (Nat × Presence)
deriving DecidableEq, Repr

/-- One dispatch step of the ws_listener loop in websocket.rs
`process_events` (lines 531-596): Ping answers Pong; UpdatePresence with
a status runs `update_presence` and then publishes a presence whose
devices come from `get_devices` and whose online_since is the
online_since of `get_first_session`, independent of the status; every
other message, including UpdatePresence with no status, falls to the
catch-all arm and does nothing.  Store calls are assumed to succeed. -/
def ws_listener_step (observers : List Nat) (user_id : Nat) (st : UserStore)
    (msg : InboundMessage) : WsStepResult :=
  match msg with
  | .ping => ⟨st, [WsSent.pong], []⟩
  | .updatePresence (some status) =>
    let st' : UserStore := ⟨st.sessions, update_presence st.presence status⟩
    let p : Presence :=
      { user_id := user_id
        status := status
        custom_status := none
        devices := get_devices st'.sessions
        online_since := (get_first_session st'.sessions).map (fun s => s.online_since) }
    ⟨st', [], publish_presence_change observers user_id p⟩
  | _ => ⟨st, [], []⟩

/-- Broker events consumed upstream (essence `OutboundMessage`), reduced
to the fields the gateway inspects: ids and, for message events, the
channel_id of the carried message. -/
inductive OutboundMessage where
  | guildCreate (guildId : Nat)
  | guildRemove (guildId : Nat)
  | channelCreateDm (channelId : Nat)
  | channelCreateGuild (channelId : Nat) (guildId : Nat)
  | channelUpdateGuild (channelId : Nat) (guildId : Nat)
  | channelDelete (channelId : Nat)
  | messageCreate (channelId : Nat)
  | messageUpdate (channelId : Nat)
  | messageDelete (channelId : Nat)
  | roleCreate (guildId : Nat)
  | roleUpdate (guildId : Nat)
  | presenceUpdateEvent
  | otherEvent
deriving DecidableEq, Repr

/-- Observable outcome of recv.rs `handle` for one broker delivery:
the frame forwarded to the send queue (if any), whether the delivery
was acked, whether it was nacked, and whether the handler terminated
abnormally (unwrap_or_nack nacks and then panics). -/
structure HandleResult where
  sent : Option OutboundMessage
  acked : Bool
  nacked : Bool
  panicked : Bool
deriving DecidableEq, Repr

/-- recv.rs `handle` (lines 35-115).  `payload` is the result of the
bincode decode of the delivery (`none` = undecodable).  On decode
failure unwrap_or_nack nacks and panics.  For MessageCreate and
MessageUpdate whose channel_id is hidden the match yields
HandleState::Break and `handle` returns before the ack; everything
else, MessageDelete included (marked FIXME in the source), falls
through, is sent, and the delivery is then acked.  Broker binding
side effects and the channel send are assumed to succeed (on their
failure the source also nacks and panics). -/
def recv_handle (payload : Option OutboundMessage) (hidden : List Nat) : HandleResult :=
  match payload with
  | none => ⟨none, false, true, true⟩
  | some b =>
    let brk : Bool :=
      match b with
      | .messageCreate ch => hidden.contains ch
      | .messageUpdate ch => hidden.contains ch
      | _ => false
    if brk then ⟨none, false, false, false⟩
    else ⟨some b, true, false, false⟩

/-- The negotiated format (config.rs `MessageFormat`). -/
inductive MessageFormat where
  | json
  | msgpack
deriving DecidableEq, Repr

/-- config.rs `Connection`: version and format from the query string. -/
structure Connection where
  version : Nat
  format : MessageFormat
deriving DecidableEq, Repr

/-- Result of decoding one ingress frame (error.rs `Error`: Close is
fatal for the session, Ignore skips the frame). -/
inductive DecodeResult (α : Type) where
  | ok (a : α)
  | close (reason : String)
  | ignore
deriving DecidableEq, Repr

/-- Ingress websocket frames by kind. -/
inductive WsFrame where
  | text (s : String)
  | binary (b : List Nat)
  | ping
  | pong
  | closeF
deriving DecidableEq, Repr

/-- Byte view of a text payload. -/
def strBytes (s : String) : List Nat := s.data.map Char.toNat

/-- config.rs `Connection::decode` (lines 65-75).  The deserializers are
external (simd_json for text, rmp_serde for binary) and are passed in as
partial functions on the payload bytes; a failed deserialization maps to
Close through the From impls in error.rs.  The negotiated format in self
is never consulted (the source marks it clippy::unused_self): text
frames always go to the JSON deserializer and binary frames always to
the MsgPack one, and any other frame kind yields Ignore. -/
def Connection.decode {α : Type} (_self : Connection)
    (jsonDec mpDec : List Nat → Option α) : WsFrame → DecodeResult α
  | .text t =>
    match jsonDec (strBytes t) with
    | some v => .ok v
    | none => .close "simd_json decode error"
  | .binary b =>
    match mpDec b with
    | some v => .ok v
    | none => .close "rmp_serde decode error"
  | _ => .ignore

/-- Decode as the specification sentence for claim C8 words it: under
JSON, text and binary frames both go through the JSON deserializer;
under MsgPack only binary frames are accepted (a text frame is a
format violation); ping, pong and close yield Ignore; deserialization
failure yields Close.  Stated only to be compared with
`Connection.decode`, which is the translation of the source. -/
def decode_per_claim {α : Type} (fmt : MessageFormat)
    (jsonDec mpDec : List Nat → Option α) : WsFrame → DecodeResult α
  | .text t =>
    match fmt with
    | .json =>
      match jsonDec (strBytes t) with
      | some v => .ok v
      | none => .close "simd_json decode error"
    | .msgpack => .close "format violation"
  | .binary b =>
    match fmt with
    | .json =>
      match jsonDec b with
      | some v => .ok v
      | none => .close "simd_json decode error"
    | .msgpack =>
      match mpDec b with
      | some v => .ok v
      | none => .close "rmp_serde decode error"
  | _ => .ignore

/-- Emission interval of the governor limiter built in client.rs
`client_rx`: Quota::per_minute(100) replenishes one cell per
60000 / 100 = 600 milliseconds. -/
def rl_t : Nat := 600

/-- Burst tolerance of the same limiter: interval times the burst size
of 100 cells, in milliseconds. -/
def rl_tau : Nat := 60000

/-- One test-and-update of the governor GCRA cell (RateLimiter::check
with Quota::per_minute(100)).  `tat` is the theoretical arrival time in
milliseconds, starting at 0; a cell at time `now` conforms when
tat + rl_t ≤ now + rl_tau, and conforming cells advance tat to
max now tat + rl_t.  This admits exactly 100 simultaneous cells. -/
def rl_check (now tat : Nat) : Bool × Nat :=
  if tat + rl_t ≤ now + rl_tau then (true, Nat.max now tat + rl_t) else (false, tat)

/-- One ingress frame as seen by client.rs `client_rx` after the
websocket read: a close frame, a decoded InboundMessage, or a decode
error (Close or Ignore, per error.rs). -/
inductive ClientFrame where
  | closeFrame
  | okMsg (m : InboundMessage)
  | decodeErrClose (reason : String)
  | decodeErrIgnore
deriving DecidableEq, Repr

/-- Frames client.rs `client_rx` pushes onto the send queue. -/
inductive ClientOut where
  | pong
  | closeOut (code : Nat) (reason : String)
deriving DecidableEq, Repr

/-- client.rs `client_rx` (lines 39-128) over a timed ingress sequence,
returning the frames pushed onto the send queue in order.  `last` is the
arrival time of the previous frame (the loop re-arms a 30 second read
timeout each iteration; an elapsed timeout ends the loop).  A close
frame ends the loop before the limiter; then the governor limiter is
checked and on a non-conforming cell the loop pushes Close 1008 (Policy)
with reason Rate limit exceeded and returns; then the frame is decoded:
Ping answers Pong, UpdatePresence touches only the store and broker (no
send-queue frame; store calls assumed to succeed), a Close decode error
pushes Close 1003 (Unsupported) and returns, an Ignore decode error
skips the frame. -/
def client_rx : List (Nat × ClientFrame) → Nat → Nat → List ClientOut
  | [], _, _ => []
  | (t, f) :: rest, last, tat =>
    if 30000 < t - last then []
    else if f = ClientFrame.closeFrame then []
    else
      match rl_check t tat with
      | (false, _) => [ClientOut.closeOut 1008 "Rate limit exceeded"]
      | (true, tat') =>
        match f with
        | .okMsg .ping => ClientOut.pong :: client_rx rest t tat'
        | .okMsg _ => client_rx rest t tat'
        | .decodeErrClose reason => [ClientOut.closeOut 1003 reason]
        | _ => client_rx rest t tat'

/-- A ping frame arriving at time 0. -/
def ping0 : Nat × ClientFrame := (0, ClientFrame.okMsg InboundMessage.ping)

/-- The base64 alphabet of the standard engine. -/
def b64Alphabet : List Char :=
  "ABCDEFGHIJKLMNOPQRSTUVWXYZabcdefghijklmnopqrstuvwxyz0123456789+/".data

/-- Character for one 6-bit value. -/
def b64Char (n : Nat) : Char := b64Alphabet.getD n 'A'

/-- base64 STANDARD_NO_PAD encoding of a byte list. -/
def base64NoPad : List Nat → List Char
  | [] => []
  | [b1] => [b64Char (b1 / 4), b64Char (b1 % 4 * 16)]
  | [b1, b2] => [b64Char (b1 / 4), b64Char (b1 % 4 * 16 + b2 / 16), b64Char (b2 % 16 * 4)]
  | b1 :: b2 :: b3 :: rest =>
    b64Char (b1 / 4) :: b64Char (b1 % 4 * 16 + b2 / 16) ::
      b64Char (b2 % 16 * 4 + b3 / 64) :: b64Char (b3 % 64) :: base64NoPad rest

/-- Big-endian bytes of a u64 (u64::to_be_bytes). -/
def u64_be_bytes (n : Nat) : List Nat :=
  [n / 2 ^ 56 % 256, n / 2 ^ 48 % 256, n / 2 ^ 40 % 256, n / 2 ^ 32 % 256,
   n / 2 ^ 24 % 256, n / 2 ^ 16 % 256, n / 2 ^ 8 % 256, n % 256]

/-- Vec::with_capacity(n): allocates capacity n but the vector LENGTH is
zero; as a byte sequence it is empty whatever n is. -/
def vec_with_capacity (_n : Nat) : List Nat := []

/-- ring SystemRandom::fill(buf): overwrites exactly the buf.len()
bytes of the buffer with bytes drawn from the generator `rng`. -/
def sys_random_fill (rng : Nat → Nat) : List Nat → List Nat :=
  go 0
where
  go : Nat → List Nat → List Nat
    | _, [] => []
    | i, _ :: rest => rng i % 256 :: go (i + 1) rest

/-- Session-id minting from config.rs `UserSession::new_with_token`
(lines 116-139): concatenate base64(user_id big-endian bytes), a dot,
base64(ip octets), a dot, and base64 of a buffer created with
Vec::with_capacity(40 - s.len()) and passed to SystemRandom::fill, then
base64-encode the bytes of the whole string. -/
def new_session_id (user_id : Nat) (ipOctets : List Nat) (rng : Nat → Nat) : String :=
  let s1 := base64NoPad (u64_be_bytes user_id) ++ ['.']
  let s2 := s1 ++ base64NoPad ipOctets ++ ['.']
  let randBuf := sys_random_fill rng (vec_with_capacity (40 - s2.length))
  let s3 := s2 ++ base64NoPad randBuf
  String.mk (base64NoPad (s3.map Char.toNat))

/-- Effects of websocket.rs `process_events`, in program order: frames
handed to the websocket write half (sendHello, sendReady, sendEvent),
presence-store and broker-publish steps of Establishing, and the broker
topology operations of the upstream setup and loop. -/
inductive Action where
  | sendHello
  | insertSessionStep
  | updatePresenceStep
  | publishPresenceStep
  | sendReady
  | declareQueue
  | subscribeGuild (guildId : Nat)
  | subscribeDm (channelId : Nat)
  | bindEvents
  | startConsumer
  | subscribeExchange (exchangeId : Nat)
  | unsubscribeExchange (exchangeId : Nat)
  | sendEvent (e : OutboundMessage)
deriving DecidableEq, Repr

/-- Results of the database fetches done inside the upstream loop of
websocket.rs, which decide how the hidden-channels set evolves.  For a
guild channel create or update, `chanRecompute ch` is `some true` when
the refetched roles and overwrites leave the channel without
VIEW_CHANNEL for a non-owner, `some false` when they grant it to a
non-owner, and `none` when the session user owns the guild (no set
change).  For a role create or update, `roleRecompute g hidden` is
`none` when the refetched guild has no channels (the loop continues
without forwarding) and otherwise the updated hidden set.  Fetches are
assumed to succeed. -/
structure DbOracle where
  chanRecompute : Nat → Option Bool
  roleRecompute : Nat → List Nat → Option (List Nat)

/-- Upstream listener loop of websocket.rs `process_events` (lines
333-529), emitting its broker topology actions and forwarded frames in
order.  A guild channel create or update that leaves the channel hidden
inserts it and continues without forwarding; a visible channel update
removes it from the set and is forwarded; MessageCreate and
MessageUpdate are dropped when their channel is hidden; MessageDelete is
not inspected and always forwarded; role events refetch the guild and,
when it has channels, extend the hidden set and forward. -/
def upstream_loop (db : DbOracle) (hidden : List Nat) :
    List OutboundMessage → List Action
  | [] => []
  | e :: rest =>
    match e with
    | .channelCreateDm c =>
      Action.subscribeExchange c :: Action.sendEvent e :: upstream_loop db hidden rest
    | .channelCreateGuild ch _ =>
      match db.chanRecompute ch with
      | some true => upstream_loop db (ch :: hidden) rest
      | some false => Action.sendEvent e :: upstream_loop db hidden rest
      | none => Action.sendEvent e :: upstream_loop db hidden rest
    | .channelUpdateGuild ch _ =>
      match db.chanRecompute ch with
      | some true => upstream_loop db (ch :: hidden) rest
      | some false => Action.sendEvent e :: upstream_loop db (hidden.erase ch) rest
      | none => Action.sendEvent e :: upstream_loop db hidden rest
    | .channelDelete c =>
      Action.unsubscribeExchange c :: Action.sendEvent e :: upstream_loop db hidden rest
    | .guildCreate g =>
      Action.subscribeExchange g :: Action.sendEvent e :: upstream_loop db hidden rest
    | .guildRemove g =>
      Action.unsubscribeExchange g :: Action.sendEvent e :: upstream_loop db hidden rest
    | .messageCreate ch =>
      if hidden.contains ch then upstream_loop db hidden rest
      else Action.sendEvent e :: upstream_loop db hidden rest
    | .messageUpdate ch =>
      if hidden.contains ch then upstream_loop db hidden rest
      else Action.sendEvent e :: upstream_loop db hidden rest
    | .roleCreate g =>
      match db.roleRecompute g hidden with
      | none => upstream_loop db hidden rest
      | some h' => Action.sendEvent e :: upstream_loop db h' rest
    | .roleUpdate g =>
      match db.roleRecompute g hidden with
      | none => upstream_loop db hidden rest
      | some h' => Action.sendEvent e :: upstream_loop db h' rest
    | _ => Action.sendEvent e :: upstream_loop db hidden rest

/-- Effect trace of the happy path of websocket.rs `process_events`
after a valid Identify (lines 119-331 and the upstream loop): Hello was
already sent before Identify was awaited; then insert_session,
update_presence, publish_presence_change, the Ready send, the queue
declaration, the guild and DM subscriptions, the bind to the events
exchange, the consumer start, and the upstream loop.  The initial
hidden-channels set (computed from a guild fetch after the consumer
start) is the parameter `hidden0`. -/
def process_events_trace (guilds dms : List Nat) (db : DbOracle) (hidden0 : List Nat)
    (events : List OutboundMessage) : List Action :=
  Action.sendHello :: Action.insertSessionStep :: Action.updatePresenceStep ::
    Action.publishPresenceStep :: Action.sendReady :: Action.declareQueue ::
      (guilds.map Action.subscribeGuild ++ dms.map Action.subscribeDm ++
        [Action.bindEvents, Action.startConsumer] ++ upstream_loop db hidden0 events)

/-- A frame handed to the websocket write half. -/
def Action.isSend : Action → Bool
  | .sendHello => true
  | .sendReady => true
  | .sendEvent _ => true
  | _ => false

/-- A database oracle for concrete evaluations: every channel stays
visible and role recomputations leave the hidden set unchanged. -/
def dbOracle0 : DbOracle :=
  ⟨fun _ => some false, fun _ hidden => some hidden⟩

/-- A concrete session record for evaluations. -/
def sessA : PresenceSession := ⟨"a", 10, Device.desktop⟩

/-- Another concrete session record for evaluations. -/
def sessB : PresenceSession := ⟨"b", 20, Device.web⟩

/-!
Theorems.  Each claim of the review has one theorem below, marked with
its claim id; shared helper lemmas precede them.
-/

/-- Unwrapping a list in which every element was wrapped. -/
theorem filterMap_id_map_some {α : Type} (l : List α) :
    (l.map some).filterMap id = l := by
  induction l with
  | nil => rfl
  | cons a t ih => simp [List.filterMap_cons, ih]

/-- Index bound for members of an enumerated list. -/
theorem fst_lt_of_mem_enumFrom {α : Type} :
    ∀ (l : List α) (n : Nat) (p : Nat × α), p ∈ l.enumFrom n → p.1 < n + l.length := by
  intro l
  induction l with
  | nil => intro n p h; simp [List.enumFrom] at h
  | cons a t ih =>
    intro n p h
    rw [List.enumFrom] at h
    rcases List.mem_cons.mp h with h | h
    · subst h; simp
    · have := ih (n + 1) p h
      simp only [List.length_cons]
      omega

/-- Value membership for members of an enumerated list. -/
theorem snd_mem_of_mem_enumFrom {α : Type} :
    ∀ (l : List α) (n : Nat) (p : Nat × α), p ∈ l.enumFrom n → p.2 ∈ l := by
  intro l
  induction l with
  | nil => intro n p h; simp [List.enumFrom] at h
  | cons a t ih =>
    intro n p h
    rw [List.enumFrom] at h
    rcases List.mem_cons.mp h with h | h
    · subst h; simp
    · exact List.mem_cons_of_mem a (ih (n + 1) p h)

/-- The index-picking fold of remove_session preserves any property that
holds of the start value and of every index in the list. -/
theorem foldl_pick_bound (sid : String) (P : Nat → Prop) :
    ∀ (l : List (Nat × PresenceSession)), (∀ p ∈ l, P p.1) → ∀ acc, P acc →
      P (l.foldl (fun a iv => if iv.2.session_id = sid then iv.1 else a) acc) := by
  intro l
  induction l with
  | nil => intro _ acc h; exact h
  | cons p t ih =>
    intro hl acc hacc
    rw [List.foldl_cons]
    by_cases hc : p.2.session_id = sid
    · simp only [hc, if_pos rfl]
      exact ih (fun q hq => hl q (List.mem_cons_of_mem p hq)) p.1 (hl p (List.mem_cons_self p t))
    · rw [if_neg hc]
      exact ih (fun q hq => hl q (List.mem_cons_of_mem p hq)) acc hacc

/-- When no entry matches, the index-picking fold returns its start value. -/
theorem foldl_pick_no_match (sid : String) :
    ∀ (l : List (Nat × PresenceSession)), (∀ p ∈ l, p.2.session_id ≠ sid) → ∀ acc,
      l.foldl (fun a iv => if iv.2.session_id = sid then iv.1 else a) acc = acc := by
  intro l
  induction l with
  | nil => intro _ _; rfl
  | cons p t ih =>
    intro hl acc
    rw [List.foldl_cons, if_neg (hl p (List.mem_cons_self p t))]
    exact ih (fun q hq => hl q (List.mem_cons_of_mem p hq)) acc

/-- When some entry matches, the index-picking fold returns the index of
a matching entry. -/
theorem foldl_pick_match (sid : String) :
    ∀ (l : List (Nat × PresenceSession)), (∃ p ∈ l, p.2.session_id = sid) → ∀ acc,
      ∃ p ∈ l, p.2.session_id = sid ∧
        l.foldl (fun a iv => if iv.2.session_id = sid then iv.1 else a) acc = p.1 := by
  intro l
  induction l with
  | nil => intro h; rcases h with ⟨p, hp, _⟩; simp at hp
  | cons p t ih =>
    intro _ acc
    by_cases ht : ∃ q ∈ t, q.2.session_id = sid
    · obtain ⟨q, hq, hqs, hfold⟩ := ih ht (if p.2.session_id = sid then p.1 else acc)
      refine ⟨q, List.mem_cons_of_mem p hq, hqs, ?_⟩
      rw [List.foldl_cons]
      exact hfold
    · have hnone : ∀ q ∈ t, q.2.session_id ≠ sid := by
        intro q hq hqs; exact ht ⟨q, hq, hqs⟩
      by_cases hc : p.2.session_id = sid
      · refine ⟨p, List.mem_cons_self p t, hc, ?_⟩
        rw [List.foldl_cons, if_pos hc]
        exact foldl_pick_no_match sid t hnone p.1
      · rename_i hex
        rcases hex with ⟨q, hq, hqs⟩
        rcases List.mem_cons.mp hq with h | h
        · exact absurd (h ▸ hqs) hc
        · exact absurd hqs (hnone q h)

/-- The marked index stays below the list length whenever the list is
not empty. -/
theorem removed_index_lt (sessions : List PresenceSession) (sid : String)
    (h : sessions ≠ []) : removed_index sessions sid < sessions.length := by
  unfold removed_index
  refine foldl_pick_bound sid (· < sessions.length) sessions.enum ?_ 0
    (List.length_pos.mpr h)
  intro p hp
  have := fst_lt_of_mem_enumFrom sessions 0 p (by simpa [List.enum] using hp)
  omega

/-- When no record matches, the marked index is 0. -/
theorem removed_index_of_no_match (sessions : List PresenceSession) (sid : String)
    (h : ∀ s ∈ sessions, s.session_id ≠ sid) : removed_index sessions sid = 0 := by
  unfold removed_index
  refine foldl_pick_no_match sid sessions.enum ?_ 0
  intro p hp
  exact h p.2 (snd_mem_of_mem_enumFrom sessions 0 p (by simpa [List.enum] using hp))

/-- Marking index i and then dropping the first mark erases exactly
position i, keeping the relative order of the rest. -/
theorem mark_remove_filterMap :
    ∀ (l : List PresenceSession) (i : Nat), i < l.length →
      (remove_first_marked ((l.map some).set i none)).filterMap id =
        l.take i ++ l.drop (i + 1) := by
  intro l
  induction l with
  | nil => intro i h; simp at h
  | cons a t ih =>
    intro i h
    cases i with
    | zero =>
      simp [remove_first_marked, filterMap_id_map_some]
    | succ j =>
      have hj : j < t.length := by
        simp only [List.length_cons] at h
        omega
      simp only [List.map_cons, List.set_cons_succ, remove_first_marked,
        List.filterMap_cons, id]
      rw [ih j hj]
      simp

/-- C1: evaluation of the teardown of process_events on the failing
input — a user whose single session closes while the stored status is
Online.  The session record is removed (any_session_exists becomes
false), but the presence key survives with status Online and no
PresenceUpdate is published, contradicting the claimed Closing step that
sets the user Offline, deletes presence-N and publishes to every
observer. -/
theorem claim_c1_teardown_leaves_presence :
    (process_events_cleanup ⟨[sessA], some PresenceStatus.online⟩ "a").store =
      ⟨[], some PresenceStatus.online⟩ ∧
    any_session_exists
      (process_events_cleanup ⟨[sessA], some PresenceStatus.online⟩ "a").store.sessions =
        false ∧
    (process_events_cleanup ⟨[sessA], some PresenceStatus.online⟩ "a").store.presence ≠
      none ∧
    (process_events_cleanup ⟨[sessA], some PresenceStatus.online⟩ "a").published = [] := by
  decide

/-- C2 counterexample: with the stored list [sessA, sessB] and a
session_id that matches no record, remove_session removes the first
record instead of leaving the list unchanged (the fold defaults to index
0, which is then marked and removed). -/
theorem claim_c2_counterexample :
    remove_session [sessA, sessB] "c" = .ok [sessB] ∧
    ([sessB] : List PresenceSession) ≠ [sessA, sessB] := by
  exact ⟨rfl, by decide⟩

/-- C2 as amended: a one-record list is deleted whole whether or not the
record matches; an empty list makes the operation fail with a store
error; a list of two or more records loses exactly the record at the
fold-picked index with the relative order of the survivors preserved,
where the picked index is the position of a matching record when one
exists and 0 (the head, which does not match) otherwise. -/
theorem claim_c2_remove_session :
    ∀ (sessions : List PresenceSession) (sid : String),
      (sessions.length = 1 → remove_session sessions sid = .ok []) ∧
      (sessions = [] → remove_session sessions sid = .error "redis: lset no such key") ∧
      (2 ≤ sessions.length →
        remove_session sessions sid =
          .ok (sessions.take (removed_index sessions sid) ++
            sessions.drop (removed_index sessions sid + 1))) ∧
      (2 ≤ sessions.length → (∀ s ∈ sessions, s.session_id ≠ sid) →
        remove_session sessions sid = .ok (sessions.drop 1)) ∧
      ((∃ p ∈ sessions.enum, p.2.session_id = sid) →
        ∃ p ∈ sessions.enum, p.2.session_id = sid ∧
          removed_index sessions sid = p.1) := by
  intro sessions sid
  refine ⟨?_, ?_, ?_, ?_, ?_⟩
  · intro h
    unfold remove_session
    rw [if_pos h]
  · intro h
    subst h
    rfl
  · intro h
    have hne : sessions ≠ [] := by
      intro hnil; rw [hnil] at h; simp at h
    unfold remove_session
    rw [if_neg (by omega), if_neg (by omega)]
    show Except.ok
        ((remove_first_marked ((sessions.map some).set (removed_index sessions sid)
          none)).filterMap id) = _
    rw [mark_remove_filterMap sessions (removed_index sessions sid)
      (removed_index_lt sessions sid hne)]
  · intro h hnm
    have hne : sessions ≠ [] := by
      intro hnil; rw [hnil] at h; simp at h
    unfold remove_session
    rw [if_neg (by omega), if_neg (by omega)]
    show Except.ok
        ((remove_first_marked ((sessions.map some).set (removed_index sessions sid)
          none)).filterMap id) = _
    rw [mark_remove_filterMap sessions (removed_index sessions sid)
      (removed_index_lt sessions sid hne)]
    rw [removed_index_of_no_match sessions sid hnm]
    simp
  · intro h
    exact foldl_pick_match sid sessions.enum h 0

/-- C2 witness: the amended behavior evaluated on concrete lists. -/
theorem claim_c2_remove_session_witness :
    remove_session [sessA] "zzz" = .ok [] ∧
    remove_session [] "a" = .error "redis: lset no such key" ∧
    remove_session [sessA, sessB] "a" =
      .ok ([sessA, sessB].take (removed_index [sessA, sessB] "a") ++
        [sessA, sessB].drop (removed_index [sessA, sessB] "a" + 1)) ∧
    remove_session [sessA, sessB] "c" = .ok ([sessA, sessB].drop 1) ∧
    (∃ p ∈ [sessA, sessB].enum, p.2.session_id = "b" ∧
      removed_index [sessA, sessB] "b" = p.1) :=
  ⟨(claim_c2_remove_session [sessA] "zzz").1 (by decide),
   (claim_c2_remove_session [] "a").2.1 rfl,
   (claim_c2_remove_session [sessA, sessB] "a").2.2.1 (by decide),
   (claim_c2_remove_session [sessA, sessB] "c").2.2.2.1 (by decide) (by decide),
   (claim_c2_remove_session [sessA, sessB] "b").2.2.2.2 ⟨(1, sessB), by decide, by decide⟩⟩

/-- C9 counterexample: an inbound UpdatePresence with status Offline,
while one session with online_since 10 is stored, publishes a presence
whose online_since is some 10, not none — the ws_listener of
websocket.rs takes online_since from get_first_session without
consulting the status. -/
theorem claim_c9_counterexample :
    (ws_listener_step [] 1 ⟨[sessA], some PresenceStatus.online⟩
        (InboundMessage.updatePresence (some PresenceStatus.offline))).published =
      [(1, ⟨1, PresenceStatus.offline, none, ⟨true, false, false⟩, some 10⟩)] ∧
    (some 10 : Option Nat) ≠ none := by
  decide

/-- C9 as amended: the handler updates the stored status through
update_presence and publishes, to every observer and to the user, one
presence whose devices field is the derived device mask and whose
online_since is the online_since of the first stored session — so it is
none exactly when the session list is empty, independent of the
requested status. -/
theorem claim_c9_update_presence_publish (observers : List Nat) (uid : Nat)
    (st : UserStore) (s : PresenceStatus) :
    (ws_listener_step observers uid st (.updatePresence (some s))).store =
      ⟨st.sessions, update_presence st.presence s⟩ ∧
    (ws_listener_step observers uid st (.updatePresence (some s))).sent = [] ∧
    ∀ e ∈ (ws_listener_step observers uid st (.updatePresence (some s))).published,
      e.2.status = s ∧ e.2.devices = get_devices st.sessions ∧
      e.2.online_since = (get_first_session st.sessions).map (fun ps => ps.online_since) ∧
      (e.2.online_since = none ↔ st.sessions = []) := by
  refine ⟨rfl, rfl, ?_⟩
  intro e he
  simp only [ws_listener_step, publish_presence_change, List.mem_map] at he
  obtain ⟨u, _, rfl⟩ := he
  refine ⟨rfl, rfl, rfl, ?_⟩
  simp [get_first_session, Option.map_eq_none', List.head?_eq_none_iff]

/-- C9 witness: the amended behavior evaluated on a concrete store and a
concrete published element. -/
theorem claim_c9_update_presence_publish_witness :
    (ws_listener_step [] 1 ⟨[sessA], some PresenceStatus.online⟩
        (.updatePresence (some PresenceStatus.idle))).store =
      ⟨[sessA], some PresenceStatus.idle⟩ ∧
    ((1, (⟨1, PresenceStatus.idle, none, ⟨true, false, false⟩, some 10⟩ : Presence)).2.online_since
        = none ↔ ([sessA] : List PresenceSession) = []) :=
  ⟨(claim_c9_update_presence_publish [] 1 ⟨[sessA], some PresenceStatus.online⟩
      PresenceStatus.idle).1,
   ((claim_c9_update_presence_publish [] 1 ⟨[sessA], some PresenceStatus.online⟩
      PresenceStatus.idle).2.2 _ (by decide)).2.2.2⟩

/-- C10: an inbound UpdatePresence carrying no status falls to the
catch-all arm of the ws_listener dispatch: the store is untouched,
nothing is published to the broker and no frame is sent to the
client. -/
theorem claim_c10_update_presence_none_noop (observers : List Nat) (uid : Nat)
    (st : UserStore) :
    ws_listener_step observers uid st (.updatePresence none) = ⟨st, [], []⟩ := rfl

/-- C3 counterexample: a MessageDelete delivery whose channel is hidden
is forwarded to the client anyway (the handler never inspects it), and a
hidden MessageCreate delivery is dropped but its delivery is NOT acked
(the handler returns on HandleState::Break before the ack call). -/
theorem claim_c3_counterexample :
    recv_handle (some (.messageDelete 5)) [5] =
      ⟨some (.messageDelete 5), true, false, false⟩ ∧
    recv_handle (some (.messageCreate 5)) [5] = ⟨none, false, false, false⟩ := by
  decide

/-- C3 as amended: MessageCreate and MessageUpdate deliveries whose
channel_id is hidden are dropped before egress, but the delivery is
neither acked nor nacked; when the channel is not hidden they are
forwarded and acked; MessageDelete is never filtered and is forwarded
and acked even for a hidden channel; hence a MessageCreate or
MessageUpdate frame reaches the client only when its channel_id is not
hidden. -/
theorem claim_c3_hidden_filter (ch : Nat) (hidden : List Nat) :
    (hidden.contains ch = true →
      recv_handle (some (.messageCreate ch)) hidden = ⟨none, false, false, false⟩ ∧
      recv_handle (some (.messageUpdate ch)) hidden = ⟨none, false, false, false⟩) ∧
    (hidden.contains ch = false →
      recv_handle (some (.messageCreate ch)) hidden =
        ⟨some (.messageCreate ch), true, false, false⟩ ∧
      recv_handle (some (.messageUpdate ch)) hidden =
        ⟨some (.messageUpdate ch), true, false, false⟩) ∧
    recv_handle (some (.messageDelete ch)) hidden =
      ⟨some (.messageDelete ch), true, false, false⟩ ∧
    (∀ m, (recv_handle (some (.messageCreate ch)) hidden).sent = some m →
      hidden.contains ch = false) ∧
    (∀ m, (recv_handle (some (.messageUpdate ch)) hidden).sent = some m →
      hidden.contains ch = false) := by
  by_cases hc : ch ∈ hidden <;> simp [recv_handle, hc]

/-- C3 witness: the amended filter behavior on concrete deliveries. -/
theorem claim_c3_hidden_filter_witness :
    recv_handle (some (.messageCreate 6)) [6] = ⟨none, false, false, false⟩ ∧
    recv_handle (some (.messageCreate 6)) [] =
      ⟨some (.messageCreate 6), true, false, false⟩ ∧
    ([] : List Nat).contains 6 = false :=
  ⟨((claim_c3_hidden_filter 6 [6]).1 (by decide)).1,
   ((claim_c3_hidden_filter 6 []).2.1 (by decide)).1,
   (claim_c3_hidden_filter 6 []).2.2.2.1 (.messageCreate 6) (by decide)⟩

/-- C4 counterexample: a decodable MessageCreate delivery on a hidden
channel is dropped with neither an ack nor a nack, so not every consumed
delivery is acked or nacked. -/
theorem claim_c4_counterexample :
    (recv_handle (some (.messageCreate 3)) [3]).acked = false ∧
    (recv_handle (some (.messageCreate 3)) [3]).nacked = false ∧
    (recv_handle (some (.messageCreate 3)) [3]).sent = none := by
  decide

/-- C4 as amended: a delivery is never both acked and nacked; an
undecodable payload is nacked exactly once and the handler terminates
abnormally; a forwarded delivery is acked and not nacked; a hidden
MessageCreate or MessageUpdate delivery is neither acked nor nacked. -/
theorem claim_c4_ack_discipline (payload : Option OutboundMessage) (hidden : List Nat) :
    (¬((recv_handle payload hidden).acked = true ∧
      (recv_handle payload hidden).nacked = true)) ∧
    (payload = none → recv_handle payload hidden = ⟨none, false, true, true⟩) ∧
    (∀ b, payload = some b → (recv_handle payload hidden).sent = some b →
      (recv_handle payload hidden).acked = true ∧
      (recv_handle payload hidden).nacked = false) ∧
    (∀ ch, (payload = some (.messageCreate ch) ∨ payload = some (.messageUpdate ch)) →
      hidden.contains ch = true →
      (recv_handle payload hidden).acked = false ∧
      (recv_handle payload hidden).nacked = false) := by
  refine ⟨?_, ?_, ?_, ?_⟩
  · cases payload with
    | none => simp [recv_handle]
    | some b => cases b <;> simp [recv_handle] <;> split <;> simp
  · intro h; subst h; rfl
  · intro b hb hs
    subst hb
    cases b <;> simp [recv_handle] at hs ⊢ <;> split <;> simp_all [recv_handle]
  · intro ch hch hc
    have hm : ch ∈ hidden := by simpa using hc
    rcases hch with h | h <;> subst h <;> simp [recv_handle, hm]

/-- C4 witness: the ack discipline evaluated on concrete deliveries. -/
theorem claim_c4_ack_discipline_witness :
    recv_handle none [] = ⟨none, false, true, true⟩ ∧
    ((recv_handle (some .otherEvent) []).acked = true ∧
      (recv_handle (some .otherEvent) []).nacked = false) ∧
    ((recv_handle (some (.messageUpdate 4)) [4]).acked = false ∧
      (recv_handle (some (.messageUpdate 4)) [4]).nacked = false) :=
  ⟨(claim_c4_ack_discipline none []).2.1 rfl,
   (claim_c4_ack_discipline (some .otherEvent) []).2.2.1 .otherEvent rfl (by decide),
   (claim_c4_ack_discipline (some (.messageUpdate 4)) [4]).2.2.2 4 (Or.inr rfl) (by decide)⟩

/-- C8 counterexample: under the JSON format a binary ingress frame is
deserialized by the MsgPack deserializer, not the JSON one, and under
the MsgPack format a text frame is accepted and JSON-deserialized — the
source never consults the negotiated format when decoding. -/
theorem claim_c8_counterexample :
    Connection.decode ⟨1, .json⟩ (fun _ => some 1) (fun _ => some 2) (.binary [0]) =
      DecodeResult.ok 2 ∧
    decode_per_claim MessageFormat.json (fun _ => some 1) (fun _ => some 2) (.binary [0]) =
      DecodeResult.ok 1 ∧
    Connection.decode ⟨1, .msgpack⟩ (fun _ => some 1) (fun _ => some 2) (.text "x") =
      DecodeResult.ok 1 ∧
    decode_per_claim MessageFormat.msgpack (fun _ => some 1) (fun _ => some 2) (.text "x") =
      DecodeResult.close "format violation" ∧
    (DecodeResult.ok 2 : DecodeResult Nat) ≠ DecodeResult.ok 1 := by
  refine ⟨rfl, rfl, rfl, rfl, by decide⟩

/-- C8 as amended: decode ignores the negotiated format entirely — a
text frame always goes through the JSON deserializer and a binary frame
always through the MsgPack one, under either format; ping, pong and
close frames yield Ignore; a failed deserialization yields Close. -/
theorem claim_c8_decode (α : Type) (c₁ c₂ : Connection) (jd md : List Nat → Option α)
    (f : WsFrame) :
    Connection.decode c₁ jd md f = Connection.decode c₂ jd md f ∧
    (∀ t v, jd (strBytes t) = some v →
      Connection.decode c₁ jd md (.text t) = .ok v) ∧
    (∀ t, jd (strBytes t) = none →
      Connection.decode c₁ jd md (.text t) = .close "simd_json decode error") ∧
    (∀ b v, md b = some v → Connection.decode c₁ jd md (.binary b) = .ok v) ∧
    (∀ b, md b = none →
      Connection.decode c₁ jd md (.binary b) = .close "rmp_serde decode error") ∧
    Connection.decode c₁ jd md .ping = .ignore ∧
    Connection.decode c₁ jd md .pong = .ignore ∧
    Connection.decode c₁ jd md .closeF = .ignore := by
  refine ⟨?_, ?_, ?_, ?_, ?_, rfl, rfl, rfl⟩
  · cases f <;> rfl
  · intro t v h; simp [Connection.decode, h]
  · intro t h; simp [Connection.decode, h]
  · intro b v h; simp [Connection.decode, h]
  · intro b h; simp [Connection.decode, h]

/-- C8 witness: the decode behavior evaluated with concrete
deserializers. -/
theorem claim_c8_decode_witness :
    Connection.decode ⟨1, .json⟩ (fun _ => some 7) (fun _ => (none : Option Nat))
      (.text "a") = .ok 7 ∧
    Connection.decode ⟨1, .json⟩ (fun _ => (none : Option Nat)) (fun _ => none)
      (.text "a") = .close "simd_json decode error" ∧
    Connection.decode ⟨1, .json⟩ (fun _ => (none : Option Nat)) (fun _ => some 9)
      (.binary [3]) = .ok 9 ∧
    Connection.decode ⟨1, .json⟩ (fun _ => (none : Option Nat)) (fun _ => none)
      (.binary [3]) = .close "rmp_serde decode error" :=
  ⟨(claim_c8_decode Nat ⟨1, .json⟩ ⟨1, .json⟩ _ _ .ping).2.1 "a" 7 rfl,
   (claim_c8_decode Nat ⟨1, .json⟩ ⟨1, .json⟩ _ _ .ping).2.2.1 "a" rfl,
   (claim_c8_decode Nat ⟨1, .json⟩ ⟨1, .json⟩ _ _ .ping).2.2.2.1 [3] 9 rfl,
   (claim_c8_decode Nat ⟨1, .json⟩ ⟨1, .json⟩ _ _ .ping).2.2.2.2.1 [3] rfl⟩

/-- The minted session id never depends on the random generator: the
buffer handed to SystemRandom::fill was created with Vec::with_capacity,
whose length is zero, so zero random bytes are written. -/
theorem new_session_id_ignores_rng (u : Nat) (ip : List Nat) (r₁ r₂ : Nat → Nat) :
    new_session_id u ip r₁ = new_session_id u ip r₂ := rfl

/-- C5: two sessions of user 1 from IP 127.0.0.1, minted with two
visibly different random generators, receive the SAME session id — the
random segment is empty because Vec::with_capacity creates a vector of
length zero, so the id is a deterministic function of user id and IP and
is not unique across sessions of one user on one address. -/
theorem claim_c5_session_id_collision :
    new_session_id 1 [127, 0, 0, 1] (fun i => i * 37 + 5) =
      new_session_id 1 [127, 0, 0, 1] (fun _ => 200) ∧
    (fun i => i * 37 + 5) 0 ≠ (fun (_ : Nat) => 200) 0 := by
  exact ⟨rfl, by decide⟩

/-- Runs of conforming cells: while at most 100 cells have been admitted,
a ping at time 0 is admitted, answered with a Pong, and the cell state
advances by one emission interval. -/
theorem client_rx_ping_run (k : Nat) :
    ∀ (a : Nat), a + k ≤ 100 → ∀ (rest : List (Nat × ClientFrame)),
      client_rx (List.replicate k ping0 ++ rest) 0 (rl_t * a) =
        List.replicate k ClientOut.pong ++ client_rx rest 0 (rl_t * (a + k)) := by
  induction k with
  | zero => intro a _ rest; simp
  | succ n ih =>
    intro a h rest
    have hc : rl_check 0 (rl_t * a) = (true, rl_t * (a + 1)) := by
      unfold rl_check
      rw [if_pos (by simp only [rl_t, rl_tau]; omega)]
      simp only [Nat.zero_max]
      ring_nf
    rw [List.replicate_succ, List.cons_append]
    show client_rx ((0, ClientFrame.okMsg InboundMessage.ping) ::
      (List.replicate n ping0 ++ rest)) 0 (rl_t * a) = _
    rw [client_rx]
    simp only [hc, Nat.sub_zero]
    rw [if_neg (by omega), if_neg (by decide)]
    show ClientOut.pong :: client_rx (List.replicate n ping0 ++ rest) 0 (rl_t * (a + 1)) = _
    rw [ih (a + 1) (by omega) rest]
    have hadd : a + 1 + n = a + (n + 1) := by omega
    rw [hadd, List.replicate_succ, List.cons_append]

/-- The 101st cell at the same instant is rejected. -/
theorem rl_check_101 : rl_check 0 (rl_t * 100) = (false, rl_t * 100) := by
  unfold rl_check
  rw [if_neg (by simp only [rl_t, rl_tau]; omega)]

/-- C6 as amended: the governor quota of client_rx is 100 events per 60
seconds, so after 100 frames within the window the next frame — the
101st, whatever follows it — makes the pipeline push exactly one Close
with code 1008 (Policy) and reason Rate limit exceeded and return, with
no further outbound frames. -/
theorem claim_c6_rate_limit_100 (rest : List (Nat × ClientFrame)) :
    client_rx (List.replicate 100 ping0 ++ ping0 :: rest) 0 0 =
      List.replicate 100 ClientOut.pong ++
        [ClientOut.closeOut 1008 "Rate limit exceeded"] := by
  have h := client_rx_ping_run 100 0 (by omega) (ping0 :: rest)
  rw [Nat.mul_zero] at h
  rw [h]
  rfl

/-- C6 counterexample: 101 ping frames inside one minute already produce
the rate-limit Close — after 100 Pongs the 101st frame is rejected — so
the limit is not 1000 per 60 seconds and the 1001st frame is never
reached. -/
theorem claim_c6_counterexample :
    client_rx (List.replicate 101 ping0) 0 0 =
      List.replicate 100 ClientOut.pong ++
        [ClientOut.closeOut 1008 "Rate limit exceeded"] := by
  have hrep : List.replicate 101 ping0 = List.replicate 100 ping0 ++ ping0 :: [] := by
    rw [← List.replicate_succ']
  rw [hrep]
  have h := client_rx_ping_run 100 0 (by omega) (ping0 :: [])
  rw [Nat.mul_zero] at h
  rw [h]
  rfl

/-- Every send in the upstream loop is an event frame. -/
theorem upstream_loop_sends (db : DbOracle) :
    ∀ (events : List OutboundMessage) (hidden : List Nat) (a : Action),
      a ∈ upstream_loop db hidden events → a.isSend = true →
        ∃ e, a = Action.sendEvent e := by
  intro events
  induction events with
  | nil => intro hidden a ha _; simp [upstream_loop] at ha
  | cons e rest ih =>
    intro hidden a ha hs
    cases e <;> simp only [upstream_loop] at ha
    case channelCreateGuild ch g =>
      rcases hdb : db.chanRecompute ch with _ | b
      · rw [hdb] at ha
        rcases List.mem_cons.mp ha with rfl | ha
        · exact ⟨_, rfl⟩
        · exact ih _ a ha hs
      · rw [hdb] at ha
        cases b
        · rcases List.mem_cons.mp ha with rfl | ha
          · exact ⟨_, rfl⟩
          · exact ih _ a ha hs
        · exact ih _ a ha hs
    case channelUpdateGuild ch g =>
      rcases hdb : db.chanRecompute ch with _ | b
      · rw [hdb] at ha
        rcases List.mem_cons.mp ha with rfl | ha
        · exact ⟨_, rfl⟩
        · exact ih _ a ha hs
      · rw [hdb] at ha
        cases b
        · rcases List.mem_cons.mp ha with rfl | ha
          · exact ⟨_, rfl⟩
          · exact ih _ a ha hs
        · exact ih _ a ha hs
    case messageCreate ch =>
      by_cases hm : hidden.contains ch
      · rw [if_pos hm] at ha
        exact ih _ a ha hs
      · rw [if_neg hm] at ha
        rcases List.mem_cons.mp ha with rfl | ha
        · exact ⟨_, rfl⟩
        · exact ih _ a ha hs
    case messageUpdate ch =>
      by_cases hm : hidden.contains ch
      · rw [if_pos hm] at ha
        exact ih _ a ha hs
      · rw [if_neg hm] at ha
        rcases List.mem_cons.mp ha with rfl | ha
        · exact ⟨_, rfl⟩
        · exact ih _ a ha hs
    case roleCreate g =>
      rcases hdb : db.roleRecompute g hidden with _ | h'
      · rw [hdb] at ha
        exact ih _ a ha hs
      · rw [hdb] at ha
        rcases List.mem_cons.mp ha with rfl | ha
        · exact ⟨_, rfl⟩
        · exact ih _ a ha hs
    case roleUpdate g =>
      rcases hdb : db.roleRecompute g hidden with _ | h'
      · rw [hdb] at ha
        exact ih _ a ha hs
      · rw [hdb] at ha
        rcases List.mem_cons.mp ha with rfl | ha
        · exact ⟨_, rfl⟩
        · exact ih _ a ha hs
    all_goals
      first
      | (rcases List.mem_cons.mp ha with rfl | ha
         · exact ⟨_, rfl⟩
         · exact ih _ a ha hs)
      | (rcases List.mem_cons.mp ha with rfl | ha
         · simp [Action.isSend] at hs
         · rcases List.mem_cons.mp ha with rfl | ha
           · exact ⟨_, rfl⟩
           · exact ih _ a ha hs)

/-- Subscribing actions are not sends. -/
theorem filter_isSend_map_subscribeGuild (l : List Nat) :
    (l.map Action.subscribeGuild).filter Action.isSend = [] := by
  induction l <;> simp_all [Action.isSend]

/-- Subscribing actions are not sends. -/
theorem filter_isSend_map_subscribeDm (l : List Nat) :
    (l.map Action.subscribeDm).filter Action.isSend = [] := by
  induction l <;> simp_all [Action.isSend]

/-- C7 as amended: on the happy path of process_events, Hello is the
first action of the connection and, among the frames handed to the write
half, Hello comes first, Ready second, and everything after Ready is an
event frame — so no event frame precedes Ready.  However Ready is NOT
sent after the upstream setup: the counterexample theorem shows the
Ready send happening before the queue declaration, the bindings and the
consumer start (the consumer starting only after Ready is what keeps
event frames behind Ready). -/
theorem claim_c7_hello_ready_order (guilds dms : List Nat) (db : DbOracle)
    (hidden0 : List Nat) (events : List OutboundMessage) :
    (process_events_trace guilds dms db hidden0 events).head? = some Action.sendHello ∧
    (process_events_trace guilds dms db hidden0 events).filter Action.isSend =
      Action.sendHello :: Action.sendReady ::
        (upstream_loop db hidden0 events).filter Action.isSend ∧
    (∀ a ∈ (upstream_loop db hidden0 events).filter Action.isSend,
      ∃ e, a = Action.sendEvent e) := by
  refine ⟨rfl, ?_, ?_⟩
  · unfold process_events_trace
    simp [List.filter_append, filter_isSend_map_subscribeGuild,
      filter_isSend_map_subscribeDm, Action.isSend]
  · intro a ha
    have hm := List.mem_filter.mp ha
    exact upstream_loop_sends db events hidden0 a hm.1 (by simpa using hm.2)

/-- C7 witness: the send order evaluated on a concrete connection. -/
theorem claim_c7_hello_ready_order_witness :
    (process_events_trace [] [] dbOracle0 [] [OutboundMessage.otherEvent]).head? =
      some Action.sendHello ∧
    ∃ e, Action.sendEvent OutboundMessage.otherEvent = Action.sendEvent e :=
  ⟨(claim_c7_hello_ready_order [] [] dbOracle0 [] [.otherEvent]).1,
   (claim_c7_hello_ready_order [] [] dbOracle0 [] [.otherEvent]).2.2
     (Action.sendEvent .otherEvent) (by decide)⟩

/-- C7 counterexample: in the trace of process_events the Ready send is
at position 4 and the queue declaration at position 5 — Ready is sent
BEFORE the upstream setup (queue declaration, bindings, consumer start),
not after a setup-complete signal. -/
theorem claim_c7_counterexample :
    (process_events_trace [] [] dbOracle0 [] []).get? 4 = some Action.sendReady ∧
    (process_events_trace [] [] dbOracle0 [] []).get? 5 = some Action.declareQueue ∧
    (4 : Nat) < 5 := by
  refine ⟨rfl, rfl, by omega⟩

end Harmony
